import Mathlib

/-!
Verification of the SafeChem portal's hybrid-search pipeline.

The development shallowly embeds two source modules:

* the PubChem service (`searchChemicalByName`, `searchChemicalsAutocomplete`),
  with the remote HTTP endpoints abstracted as a `PubChemWorld` oracle: `none`
  models a transport error (a rejected fetch promise), `some r` a response whose
  `ok` field is the HTTP success flag and whose payload is the already-extracted
  JSON content; and

* the `useHybridSearch` React hook, modelled as an event-driven state machine:
  `Event.setQuery` is a render with a new `query` prop followed by the effect
  run (previous timer cleaned up), `Event.timerFire` is the 200 ms debounce
  timer firing, and `Event.flightSettle` is the settlement of one in-flight
  remote call.  Closure capture is modelled explicitly: the timer callback
  carries the `query` and `cachedResults` values of the render that created it.

Machine integers do not occur; molecular weights (floats in the source, never
inspected by any claim) are modelled as naturals, with `toFixed(2)` rendering
of a whole number abbreviated to appending ".00".
-/

namespace SafeChem

/-! ### String helpers (JS `includes`, `startsWith`, `toLowerCase`) -/

/-- JS `String.prototype.startsWith` on character lists. -/
def listStartsWith : List Char → List Char → Bool
  | _, [] => true
  | [], _ :: _ => false
  | a :: as, b :: bs => a == b && listStartsWith as bs

/-- `listContains t s = true` iff `t` occurs as a contiguous substring of `s`
(JS `s.includes(t)`). -/
def listContains (t : List Char) : List Char → Bool
  | [] => listStartsWith [] t
  | a :: as => listStartsWith (a :: as) t || listContains t as

/-- JS `s.includes(t)`. -/
def jsIncludes (s t : String) : Bool :=
  listContains t.data s.data

/-- JS `s.startsWith(p)`. -/
def jsStartsWith (s p : String) : Bool :=
  listStartsWith s.data p.data

/-- JS `s.toLowerCase()` (ASCII case folding). -/
def lowerStr (s : String) : String :=
  ⟨s.data.map Char.toLower⟩

/-! ### Data model (`PubChemCompound`, `Chemical`, the popular-chemicals catalog) -/

/-- A compound record as produced by the PubChem service
(`PubChemCompound` in `pubchemApi`). -/
structure PubChemCompound where
  cid : Nat
  name : String
  molecularFormula : String
  molecularWeight : Nat
  iupacName : Option String
  canonicalSmiles : Option String
  deriving DecidableEq

/-- The fields the service extracts from one element of a `PC_Compounds` JSON
array (after the `find`/`|| default` lookups on `props`). -/
structure RawCompound where
  cid : Nat
  molecularFormula : String
  molecularWeight : Nat
  iupacName : Option String
  canonicalSmiles : Option String
  deriving DecidableEq

/-- The `Chemical` record exposed by the hook. -/
structure Chemical where
  id : String
  name : String
  formula : String
  casNumber : String
  category : String
  hazardLevel : String
  description : String
  deriving DecidableEq

/-- One entry of the static popular-chemicals catalog. -/
structure PopularChemical where
  cid : Nat
  name : String
  formula : String
  category : String
  deriving DecidableEq

/-- The static catalog from `src/data/popularChemicals.ts`, in source order. -/
def popularChemicals : List PopularChemical := [
  ⟨702, "Ethanol", "C2H6O", "Solvent"⟩,
  ⟨180, "Acetone", "C3H6O", "Solvent"⟩,
  ⟨887, "Methanol", "CH4O", "Solvent"⟩,
  ⟨3776, "Isopropanol", "C3H8O", "Solvent"⟩,
  ⟨241, "Benzene", "C6H6", "Solvent"⟩,
  ⟨1140, "Toluene", "C7H8", "Solvent"⟩,
  ⟨8078, "Chloroform", "CHCl3", "Solvent"⟩,
  ⟨6212, "Ethyl acetate", "C4H8O2", "Solvent"⟩,
  ⟨6569, "Diethyl ether", "C4H10O", "Solvent"⟩,
  ⟨8252, "Dichloromethane", "CH2Cl2", "Solvent"⟩,
  ⟨1118, "Sulfuric acid", "H2SO4", "Acid"⟩,
  ⟨313, "Hydrochloric acid", "HCl", "Acid"⟩,
  ⟨944, "Nitric acid", "HNO3", "Acid"⟩,
  ⟨176, "Acetic acid", "C2H4O2", "Acid"⟩,
  ⟨1032, "Phosphoric acid", "H3PO4", "Acid"⟩,
  ⟨284, "Formic acid", "CH2O2", "Acid"⟩,
  ⟨338, "Citric acid", "C6H8O7", "Acid"⟩,
  ⟨1110, "Carbonic acid", "H2CO3", "Acid"⟩,
  ⟨14798, "Sodium hydroxide", "NaOH", "Base"⟩,
  ⟨14797, "Potassium hydroxide", "KOH", "Base"⟩,
  ⟨222, "Ammonia", "NH3", "Base"⟩,
  ⟨14917, "Calcium hydroxide", "Ca(OH)2", "Base"⟩,
  ⟨16211, "Sodium carbonate", "Na2CO3", "Base"⟩,
  ⟨2244, "Aspirin", "C9H8O4", "Pharmaceutical"⟩,
  ⟨1983, "Acetaminophen", "C8H9NO2", "Pharmaceutical"⟩,
  ⟨3672, "Ibuprofen", "C13H18O2", "Pharmaceutical"⟩,
  ⟨2519, "Caffeine", "C8H10N4O2", "Pharmaceutical"⟩,
  ⟨5090, "Glucose", "C6H12O6", "Pharmaceutical"⟩,
  ⟨5988, "Penicillin", "C16H18N2O4S", "Pharmaceutical"⟩,
  ⟨2157, "Morphine", "C17H19NO3", "Pharmaceutical"⟩,
  ⟨5353740, "Amoxicillin", "C16H19N3O5S", "Pharmaceutical"⟩,
  ⟨977, "Oxygen", "O2", "Element"⟩,
  ⟨783, "Hydrogen", "H2", "Element"⟩,
  ⟨947, "Nitrogen", "N2", "Element"⟩,
  ⟨280, "Carbon dioxide", "CO2", "Element"⟩,
  ⟨962, "Water", "H2O", "Element"⟩,
  ⟨24823, "Sodium chloride", "NaCl", "Salt"⟩,
  ⟨5460341, "Calcium chloride", "CaCl2", "Salt"⟩,
  ⟨6337, "Formaldehyde", "CH2O", "Organic"⟩,
  ⟨174, "Ethylene", "C2H4", "Organic"⟩,
  ⟨6544, "Propane", "C3H8", "Organic"⟩,
  ⟨7843, "Butane", "C4H10", "Organic"⟩,
  ⟨8058, "Hexane", "C6H14", "Organic"⟩,
  ⟨297, "Methane", "CH4", "Organic"⟩,
  ⟨6276, "Ethane", "C2H6", "Organic"⟩,
  ⟨753, "Glycerol", "C3H8O3", "Organic"⟩,
  ⟨5793, "Sucrose", "C12H22O11", "Organic"⟩,
  ⟨5282230, "Fructose", "C6H12O6", "Organic"⟩,
  ⟨784, "Hydrogen peroxide", "H2O2", "Oxidizer"⟩,
  ⟨23925, "Sodium bicarbonate", "NaHCO3", "Base"⟩,
  ⟨5462309, "Potassium permanganate", "KMnO4", "Oxidizer"⟩,
  ⟨24437, "Sodium hypochlorite", "NaClO", "Oxidizer"⟩,
  ⟨24860, "Calcium carbonate", "CaCO3", "Salt"⟩,
  ⟨7847, "Phenol", "C6H6O", "Organic"⟩,
  ⟨996, "Urea", "CH4N2O", "Organic"⟩,
  ⟨1031, "Pyridine", "C5H5N", "Organic"⟩,
  ⟨6029, "Aniline", "C6H7N", "Organic"⟩,
  ⟨6324, "Styrene", "C8H8", "Organic"⟩]

/-! ### The PubChem service (`src/services/pubchemApi.ts`) -/

/-- Response of the name-lookup endpoint `compound/name/<n>/JSON`:
HTTP success flag plus the extracted `PC_Compounds || []` array. -/
structure NameResp where
  ok : Bool
  compounds : List RawCompound
  deriving DecidableEq

/-- Response of the autocomplete endpoint: flag plus
`dictionary_terms.compound || []`. -/
structure AutoResp where
  ok : Bool
  terms : List String
  deriving DecidableEq

/-- Response of the per-name CID endpoint: flag plus `IdentifierList.CID`
(possibly empty). -/
structure CidResp where
  ok : Bool
  cids : List Nat
  deriving DecidableEq

/-- Response of the batched detail endpoint `compound/cid/<list>/JSON`. -/
structure DetailResp where
  ok : Bool
  compounds : List RawCompound
  deriving DecidableEq

/-- The remote world the service talks to.  Each field is one endpoint;
`none` models a rejected fetch (network error), `some` a settled response. -/
structure PubChemWorld where
  nameFetch : String → Option NameResp
  autoFetch : String → Nat → Option AutoResp
  cidFetch : String → Option CidResp
  detailFetch : List Nat → Option DetailResp

/-- `searchChemicalByName`: name-lookup that labels every returned compound
with the queried name; any transport error or non-success status is caught and
yields `[]`. -/
def searchChemicalByName (w : PubChemWorld) (name : String) : List PubChemCompound :=
  match w.nameFetch name with
  | none => []
  | some r =>
    if r.ok then
      r.compounds.map (fun c =>
        ⟨c.cid, name, c.molecularFormula, c.molecularWeight, c.iupacName, c.canonicalSmiles⟩)
    else []

/-- The static per-letter table of common chemicals used for 1–2 character
queries (`commonChemicals` in the source). -/
def shortTable : Char → List String
  | 'a' => ["acetone", "ammonia", "aspirin", "acetic acid", "acetaminophen", "argon", "arsenic"]
  | 'b' => ["benzene", "butanol", "bromine", "barium", "boron"]
  | 'c' => ["caffeine", "chlorine", "carbon", "calcium", "copper", "chromium"]
  | 'd' => ["dextrose", "dimethyl", "dopamine"]
  | 'e' => ["ethanol", "ethane", "ether", "epinephrine"]
  | 'f' => ["formaldehyde", "fluorine", "fructose"]
  | 'g' => ["glucose", "glycerol", "gold"]
  | 'h' => ["hydrogen", "helium", "hydrochloric acid"]
  | 'i' => ["iodine", "iron", "isopropanol", "ibuprofen"]
  | 'm' => ["methanol", "methane", "mercury", "magnesium"]
  | 'n' => ["nitrogen", "neon", "nickel", "nitric acid"]
  | 'o' => ["oxygen", "ozone"]
  | 'p' => ["propanol", "propane", "phosphorus", "potassium"]
  | 's' => ["sulfuric acid", "sodium", "silver", "sucrose"]
  | 't' => ["toluene", "titanium"]
  | 'w' => ["water"]
  | _ => []

/-- The candidate list of the short-query path: per-letter list of the
lowercased first character, filtered by `startsWith` when the query has
exactly 2 characters. -/
def shortCandidates (query : String) : List String :=
  let lq := lowerStr query
  let suggestions := match lq.data.head? with
    | some c => shortTable c
    | none => []
  if query.length == 2 then
    suggestions.filter (fun s => jsStartsWith (lowerStr s) lq)
  else suggestions

/-- One step of the suggestion-to-CID fan-out: `none` models the dropped item
(thrown lookup, non-success status, missing or zero CID — `r.cid` must be
truthy in the source's filter). -/
def cidEntry (w : PubChemWorld) (name : String) : Option (String × Nat) :=
  match w.cidFetch name with
  | none => none
  | some cr =>
    if cr.ok then
      match cr.cids.head? with
      | some c => if c == 0 then none else some (name, c)
      | none => none
    else none

/-- `validCids` of the source: the surviving `(name, cid)` pairs of the first
20 suggestions, in suggestion order. -/
def resolvedPairs (w : PubChemWorld) (terms : List String) : List (String × Nat) :=
  (terms.take 20).filterMap (cidEntry w)

/-- Maps one batch-response compound to its output record, attaching the first
resolver pair whose cid matches; the JS `?.name || fallback` also replaces an
empty matched name by the synthesized label. -/
def mkDetailRecord (pairs : List (String × Nat)) (c : RawCompound) : PubChemCompound :=
  let nm := match pairs.find? (fun v => v.2 == c.cid) with
    | some v => if v.1 = "" then "Compound " ++ toString c.cid else v.1
    | none => "Compound " ++ toString c.cid
  ⟨c.cid, nm, c.molecularFormula, c.molecularWeight, c.iupacName, c.canonicalSmiles⟩

/-- Observable remote traffic of one service invocation: the queries sent to
the autocomplete endpoint and the identifier lists sent to the batched detail
endpoint. -/
structure SvcLog where
  autoCalls : List String
  detailCalls : List (List Nat)
  deriving DecidableEq

/-- The autocomplete path of `searchChemicalsAutocomplete` (steps 1–3 of the
source), returning the result together with the remote-call log. -/
def autocompletePath (w : PubChemWorld) (query : String) (limit : Nat) :
    List PubChemCompound × SvcLog :=
  match w.autoFetch query limit with
  | none => ([], ⟨[query], []⟩)
  | some ar =>
    if ar.ok then
      if ar.terms.isEmpty then ([], ⟨[query], []⟩)
      else
        let pairs := resolvedPairs w ar.terms
        if pairs.isEmpty then ([], ⟨[query], []⟩)
        else
          let cids := pairs.map (fun v => v.2)
          match w.detailFetch cids with
          | none => ([], ⟨[query], [cids]⟩)
          | some dr =>
            if dr.ok then (dr.compounds.map (mkDetailRecord pairs), ⟨[query], [cids]⟩)
            else ([], ⟨[query], [cids]⟩)
    else ([], ⟨[query], []⟩)

/-- `searchChemicalsAutocomplete(query, limit)`: short-query path for queries
of length ≤ 2 with a non-empty candidate list (each candidate resolved
individually, failures dropped), otherwise the autocomplete path. -/
def searchChemicalsAutocomplete (w : PubChemWorld) (query : String) (limit : Nat) :
    List PubChemCompound × SvcLog :=
  if query.length ≤ 2 then
    let filtered := shortCandidates query
    if filtered.length > 0 then
      ((filtered.take 10).filterMap (fun name => (searchChemicalByName w name).head?), ⟨[], []⟩)
    else autocompletePath w query limit
  else autocompletePath w query limit

/-! ### The hybrid-search hook (`src/hooks/useHybridSearch.ts`, part_000) -/

/-- `convertPopularToChemical`. -/
def convertPopularToChemical (p : PopularChemical) : Chemical :=
  ⟨toString p.cid, p.name, p.formula, "", p.category, "Moderate",
    "Common " ++ lowerStr p.category⟩

/-- `convertPubChemToChemical`; the weight is a natural here, so the source's
`toFixed(2)` prints it with a ".00" suffix. -/
def convertPubChemToChemical (c : PubChemCompound) : Chemical :=
  ⟨toString c.cid, c.name, c.molecularFormula, "", "Organic", "Moderate",
    "MW: " ++ toString c.molecularWeight ++ ".00 g/mol"⟩

/-- Does a catalog entry match the (already lowercased) query: case-insensitive
substring match on name or formula. -/
def chemMatches (lq : String) (e : PopularChemical) : Bool :=
  jsIncludes (lowerStr e.name) lq || jsIncludes (lowerStr e.formula) lq

/-- Phase 1 of the hook, `searchCached`: filter the catalog, keep the first 10,
convert.  Pure and synchronous. -/
def searchCached (query : String) : List Chemical :=
  ((popularChemicals.filter (chemMatches (lowerStr query))).take 10).map
    convertPopularToChemical

/-- The `searchSource` state value. -/
inductive Source where
  | cache
  | api
  | both
  deriving DecidableEq

/-- A scheduled or in-flight `searchAPI` invocation with the values its JS
closure captured: the `query` of the effect that created it and the
`cachedResults` state of the render that ran that effect (captured before
`searchCached`'s own update, hence possibly stale). -/
structure Flight where
  fquery : String
  fcached : List Chemical
  deriving DecidableEq

/-- The hook's state: the `query` prop, the four `useState` cells, the pending
debounce timer (at most one), and the in-flight remote calls. -/
structure HookState where
  query : String
  cachedResults : List Chemical
  apiResults : List Chemical
  loading : Bool
  searchSource : Source
  pending : Option Flight
  inflight : List Flight
  deriving DecidableEq

/-- State at mount: query `""`, empty results, not loading, source `cache`. -/
def initState : HookState :=
  ⟨"", [], [], false, Source.cache, none, []⟩

/-- The exposed `results`: cached results followed by API results. -/
def results (s : HookState) : List Chemical :=
  s.cachedResults ++ s.apiResults

/-- Events of the single-threaded UI scheduler. -/
inductive Event where
  | setQuery (q : String)
  | timerFire
  | flightSettle (i : Nat)
  deriving DecidableEq

/-- One scheduler step.  `w` resolves a query string the way the service
settles: `none` is a rejected promise, `some cs` a resolved compound list.

* `setQuery q` with `q` equal to the current query is a no-op (the effect's
  dependency array is unchanged).  Otherwise the previous effect's cleanup
  clears the pending timer and the effect runs: the empty query clears the
  collections and sets the source to `cache`; a non-empty query runs
  `searchCached` synchronously and schedules `searchAPI`, whose closure
  captures the pre-update `cachedResults`.
* `timerFire` starts the debounced `searchAPI`: `loading` becomes true and the
  call goes in flight.
* `flightSettle i` settles the `i`-th in-flight call.  On success the API
  results are deduplicated against the closure-captured cache list and
  `searchSource` is recomputed from that same captured list; on failure only
  the `finally` block runs.  In both cases `loading` becomes false.  No
  staleness check gates the update. -/
def step (w : String → Option (List PubChemCompound)) (s : HookState) : Event → HookState
  | Event.setQuery q =>
    if q = s.query then s
    else
      let s1 : HookState := { s with query := q, pending := none }
      if q = "" then
        { s1 with cachedResults := [], apiResults := [], searchSource := Source.cache }
      else
        let cached := searchCached q
        let s2 : HookState := { s1 with cachedResults := cached }
        let s3 : HookState :=
          if cached.length > 0 then { s2 with searchSource := Source.cache } else s2
        { s3 with pending := some ⟨q, s.cachedResults⟩ }
  | Event.timerFire =>
    match s.pending with
    | none => s
    | some f =>
      { s with pending := none, loading := true, inflight := s.inflight ++ [f] }
  | Event.flightSettle i =>
    match s.inflight[i]? with
    | none => s
    | some f =>
      let s1 : HookState := { s with inflight := s.inflight.eraseIdx i, loading := false }
      match w f.fquery with
      | none => s1
      | some compounds =>
        let apiChemicals := compounds.map convertPubChemToChemical
        let cachedIds := f.fcached.map (fun c => c.id)
        let uniqueApi := apiChemicals.filter (fun c => !(cachedIds.contains c.id))
        { s1 with
            apiResults := uniqueApi,
            searchSource := if f.fcached.length > 0 then Source.both else Source.api }

/-- Run a sequence of events from the mount state. -/
def run (w : String → Option (List PubChemCompound)) (es : List Event) : HookState :=
  es.foldl (step w) initState

/-! ### Helper lemmas -/

/-- Unfolding of `step` on a genuine non-empty query change. -/
lemma step_setQuery_of_ne (w : String → Option (List PubChemCompound)) (s : HookState)
    (q : String) (h1 : q ≠ s.query) (h2 : q ≠ "") :
    step w s (Event.setQuery q) =
      { s with
          query := q,
          cachedResults := searchCached q,
          searchSource :=
            if (searchCached q).length > 0 then Source.cache else s.searchSource,
          pending := some ⟨q, s.cachedResults⟩ } := by
  simp only [step]
  rw [if_neg h1, if_neg h2]
  split_ifs with hc
  · rfl
  · rfl

/-- Unfolding of `step` on the settlement of an existing flight. -/
lemma step_settle_eq (w : String → Option (List PubChemCompound)) (s : HookState)
    (i : Nat) (f : Flight) (hf : s.inflight[i]? = some f) :
    step w s (Event.flightSettle i) =
      match w f.fquery with
      | none => { s with inflight := s.inflight.eraseIdx i, loading := false }
      | some compounds =>
        { s with
            inflight := s.inflight.eraseIdx i,
            loading := false,
            apiResults := (compounds.map convertPubChemToChemical).filter
              (fun c => !((f.fcached.map (fun d => d.id)).contains c.id)),
            searchSource := if f.fcached.length > 0 then Source.both else Source.api } := by
  simp only [step]
  rw [hf]

/-- A `step` never leaves `loading` set while no call is in flight. -/
lemma step_loading_inv (w : String → Option (List PubChemCompound)) (s : HookState)
    (e : Event) (h : s.inflight = [] → s.loading = false) :
    (step w s e).inflight = [] → (step w s e).loading = false := by
  cases e with
  | setQuery q =>
    simp only [step]
    split_ifs <;> exact h
  | timerFire =>
    cases hp : s.pending with
    | none => simpa [step, hp] using h
    | some f => simp [step, hp]
  | flightSettle i =>
    cases hf : s.inflight[i]? with
    | none => simpa [step, hf] using h
    | some f =>
      rw [step_settle_eq w s i f hf]
      cases w f.fquery <;> simp

/-- `loading` is false in every reachable state with no in-flight call. -/
lemma run_loading_inv (w : String → Option (List PubChemCompound)) (es : List Event)
    (h : (run w es).inflight = []) : (run w es).loading = false := by
  suffices hgen : ∀ (l : List Event) (s : HookState), (s.inflight = [] → s.loading = false) →
      ((l.foldl (step w) s).inflight = [] → (l.foldl (step w) s).loading = false) by
    exact hgen es initState (fun _ => rfl) h
  intro l
  induction l with
  | nil => intro s hs; exact hs
  | cons e rest ih => intro s hs; exact ih (step w s e) (step_loading_inv w s e hs)

/-! ### Claims C1 and C2: staleness of the orchestrator -/

/-- Remote compound used for the C1 query `"q1"`. -/
def cmpA : PubChemCompound := ⟨11, "alpha", "F1", 1, none, none⟩

/-- Remote compound used for the C1 query `"q2"`. -/
def cmpB : PubChemCompound := ⟨22, "beta", "F2", 2, none, none⟩

/-- Resolver world for C1: distinct results for `"q1"` and `"q2"`. -/
def w1 : String → Option (List PubChemCompound) :=
  fun q => if q = "q1" then some [cmpA] else if q = "q2" then some [cmpB] else none

/-- Claim C1 (refuted; the code lacks the staleness guard the spec describes).
With query `"q1"` already in flight when `"q2"` is issued, and `"q1"`
settling last, the final state carries the query `"q2"` but `"q1"`'s remote
results: the late result is applied to the newer query's state, whereas a run
that only ever issues `"q2"` ends with `"q2"`'s result.  The two result sets
differ, so the final exposed state does not reflect Q2 only. -/
theorem C1_stale_flight_applied :
    (run w1 [Event.setQuery "q1", Event.timerFire, Event.setQuery "q2", Event.timerFire,
      Event.flightSettle 1, Event.flightSettle 0]).query = "q2"
    ∧ (run w1 [Event.setQuery "q1", Event.timerFire, Event.setQuery "q2", Event.timerFire,
        Event.flightSettle 1, Event.flightSettle 0]).apiResults =
      [convertPubChemToChemical cmpA]
    ∧ (run w1 [Event.setQuery "q2", Event.timerFire, Event.flightSettle 0]).apiResults =
      [convertPubChemToChemical cmpB]
    ∧ convertPubChemToChemical cmpA ≠ convertPubChemToChemical cmpB := by decide

/-- Resolver world for C2: `"ethanol"` resolves remotely to CID 702, the CID
of the cached catalog entry named Ethanol. -/
def wEth : String → Option (List PubChemCompound) :=
  fun q => if q = "ethanol" then some [⟨702, "Ethanol", "C2H6O", 46, none, none⟩] else none

/-- Claim C2 (refuted; the dedup closure is stale).  From the mount state,
issuing `"ethanol"`, letting the debounce fire and the remote call settle:
the cache phase found two matches (CIDs 702 and 887), yet identifier 702
appears twice in the final results (once from the cache, once from the remote
segment) and `searchSource` ends as `api`, not `both` — because `searchAPI`
deduplicates against the `cachedResults` value captured by the effect's
closure (the pre-change value `[]`), not the cache results current when the
remote call was issued. -/
theorem C2_dedup_uses_previous_render_cache :
    (results (run wEth [Event.setQuery "ethanol", Event.timerFire, Event.flightSettle 0])).map
      (fun c => c.id) = ["702", "887", "702"]
    ∧ (run wEth [Event.setQuery "ethanol", Event.timerFire,
        Event.flightSettle 0]).searchSource = Source.api
    ∧ (run wEth [Event.setQuery "ethanol", Event.timerFire,
        Event.flightSettle 0]).cachedResults.length > 0 := by decide

/-! ### Claim C7: re-issuing the identical query -/

/-- Claim C7 (confirmed).  Issuing the query string the state already carries
— the effect's dependency array is unchanged — is a no-op, so after a fully
resolved first issue (no pending timer, nothing in flight) a second issue of
the same string leaves the state, and hence the final `results` sequence,
exactly as the first left it. -/
theorem C7_idempotent_requery (w : String → Option (List PubChemCompound))
    (es : List Event) (q : String) (hq : (run w es).query = q)
    (hp : (run w es).pending = none) (hi : (run w es).inflight = []) :
    run w (es ++ [Event.setQuery q]) = run w es
    ∧ results (run w (es ++ [Event.setQuery q])) = results (run w es) := by
  have h1 : run w (es ++ [Event.setQuery q]) = step w (run w es) (Event.setQuery q) := by
    simp [run, List.foldl_append]
  have h2 : step w (run w es) (Event.setQuery q) = run w es := by
    simp [step, hq]
  exact ⟨h1.trans h2, by rw [h1, h2]⟩

/-- Resolver world for the C7 witness. -/
def w7 : String → Option (List PubChemCompound) :=
  fun q => if q = "qq7" then some [⟨33, "gamma", "F3", 3, none, none⟩] else none

/-- Witness for C7 at a concrete fully-resolved run. -/
theorem C7_witness :
    results (run w7 ([Event.setQuery "qq7", Event.timerFire, Event.flightSettle 0] ++
      [Event.setQuery "qq7"])) =
    results (run w7 [Event.setQuery "qq7", Event.timerFire, Event.flightSettle 0]) :=
  (C7_idempotent_requery w7 [Event.setQuery "qq7", Event.timerFire, Event.flightSettle 0]
    "qq7" (by decide) (by decide) (by decide)).2

/-! ### Claim C9: the empty query -/

/-- Resolver world for the C9 counterexample. -/
def w9 : String → Option (List PubChemCompound) := fun _ => none

/-- Claim C9 as stated is refuted on one point: clearing the query while a
remote call from the previous query is still in flight leaves `loading = true`
(the empty-query branch never touches `loading`). -/
theorem C9_counterexample :
    (run w9 [Event.setQuery "q9", Event.timerFire, Event.setQuery ""]).query = ""
    ∧ (run w9 [Event.setQuery "q9", Event.timerFire, Event.setQuery ""]).loading = true := by
  decide

/-- Claim C9 as amended (confirmed).  When the query becomes empty and no
remote call is outstanding, the orchestrator clears both result collections,
sets `searchSource` to `cache`, has `loading = false`, and neither schedules a
timer nor has anything in flight — no I/O is issued for the empty query. -/
theorem C9_empty_query_clears (w : String → Option (List PubChemCompound))
    (es : List Event) (hq : (run w es).query ≠ "") (hi : (run w es).inflight = []) :
    (step w (run w es) (Event.setQuery "")).cachedResults = []
    ∧ (step w (run w es) (Event.setQuery "")).apiResults = []
    ∧ (step w (run w es) (Event.setQuery "")).searchSource = Source.cache
    ∧ (step w (run w es) (Event.setQuery "")).loading = false
    ∧ (step w (run w es) (Event.setQuery "")).pending = none
    ∧ (step w (run w es) (Event.setQuery "")).inflight = [] := by
  have hl : (run w es).loading = false := run_loading_inv w es hi
  have hne : ¬((("" : String)) = (run w es).query) := fun hc => hq hc.symm
  have hstep : step w (run w es) (Event.setQuery "") =
      { run w es with
          query := "", pending := none, cachedResults := [], apiResults := [],
          searchSource := Source.cache } := by
    simp only [step]
    rw [if_neg hne]
    simp
  rw [hstep]
  exact ⟨rfl, rfl, rfl, hl, rfl, hi⟩

/-- Event list for the C9 witness: a fully settled non-empty query. -/
def es9 : List Event := [Event.setQuery "q9", Event.timerFire, Event.flightSettle 0]

/-- Witness for C9 on a concrete settled run. -/
theorem C9_witness :
    (step w9 (run w9 es9) (Event.setQuery "")).apiResults = []
    ∧ (step w9 (run w9 es9) (Event.setQuery "")).loading = false :=
  ⟨(C9_empty_query_clears w9 es9 (by decide) (by decide)).2.1,
   (C9_empty_query_clears w9 es9 (by decide) (by decide)).2.2.2.1⟩

/-! ### Claim C10: when `searchSource` is (re)assigned -/

/-- Claim C10 (confirmed).  For a non-empty query change, the synchronous
cache phase assigns `searchSource := cache` exactly when the cache search
matched; with zero matches it leaves the previous value in place.  The timer
firing never touches `searchSource`; it is next reassigned only when a remote
call settles successfully, to `both` or `api` according to the flight's
captured cache list (a failed settlement leaves it unchanged). -/
theorem C10_searchSource_frame (w : String → Option (List PubChemCompound))
    (s : HookState) (q : String) (i : Nat) :
    (q ≠ "" → q ≠ s.query → searchCached q = [] →
      (step w s (Event.setQuery q)).searchSource = s.searchSource)
    ∧ (q ≠ "" → q ≠ s.query → searchCached q ≠ [] →
      (step w s (Event.setQuery q)).searchSource = Source.cache)
    ∧ (step w s Event.timerFire).searchSource = s.searchSource
    ∧ (∀ f, s.inflight[i]? = some f → w f.fquery = none →
      (step w s (Event.flightSettle i)).searchSource = s.searchSource)
    ∧ (∀ f cs, s.inflight[i]? = some f → w f.fquery = some cs →
      (step w s (Event.flightSettle i)).searchSource =
        (if f.fcached.length > 0 then Source.both else Source.api)) := by
  refine ⟨?_, ?_, ?_, ?_, ?_⟩
  · intro h1 h2 h3
    rw [step_setQuery_of_ne w s q h2 h1]
    simp [h3]
  · intro h1 h2 h3
    rw [step_setQuery_of_ne w s q h2 h1]
    simp [List.length_pos.mpr h3]
  · cases hp : s.pending with
    | none => simp [step, hp]
    | some f => simp [step, hp]
  · intro f hf hw
    rw [step_settle_eq w s i f hf, hw]
  · intro f cs hf hw
    rw [step_settle_eq w s i f hf, hw]

/-- Resolver world for the C10 witness. -/
def w10 : String → Option (List PubChemCompound) :=
  fun q => if q = "qq10" then some [] else none

/-- Flight used in the C10 witness: its captured cache list is non-empty. -/
def fl10 : Flight := ⟨"qq10", [convertPopularToChemical ⟨702, "Ethanol", "C2H6O", "Solvent"⟩]⟩

/-- State for the C10 witness: one call in flight. -/
def s10 : HookState := ⟨"qq10", [], [], true, Source.cache, none, [fl10]⟩

/-- Witness for C10: a successful settlement whose captured cache list is
non-empty sets `searchSource` to `both`. -/
theorem C10_witness : (step w10 s10 (Event.flightSettle 0)).searchSource = Source.both := by
  have h := (C10_searchSource_frame w10 s10 "x" 0).2.2.2.2 fl10 [] (by decide) (by decide)
  simpa using h

/-! ### Claim C8: the synchronous local cache search -/

/-- Claim C8 (confirmed).  A non-empty query change synchronously exposes
`searchCached q` as `cachedResults` while the remote phase is still only a
pending timer (nothing new in flight).  `searchCached` returns catalog entries
matching the query case-insensitively on name or formula, converted, in
catalog order (a sublist of the converted catalog), truncated to at most 10;
when at most 10 entries match, every matching entry is returned. -/
theorem C8_local_cache_search (w : String → Option (List PubChemCompound))
    (s : HookState) (q : String) (h1 : q ≠ "") (h2 : q ≠ s.query) :
    (step w s (Event.setQuery q)).cachedResults = searchCached q
    ∧ (step w s (Event.setQuery q)).inflight = s.inflight
    ∧ (step w s (Event.setQuery q)).pending = some ⟨q, s.cachedResults⟩
    ∧ (searchCached q).length ≤ 10
    ∧ List.Sublist (searchCached q) (popularChemicals.map convertPopularToChemical)
    ∧ (∀ c ∈ searchCached q, ∃ e ∈ popularChemicals,
        chemMatches (lowerStr q) e = true ∧ c = convertPopularToChemical e)
    ∧ ((popularChemicals.filter (chemMatches (lowerStr q))).length ≤ 10 →
        ∀ e ∈ popularChemicals, chemMatches (lowerStr q) e = true →
          convertPopularToChemical e ∈ searchCached q) := by
  rw [step_setQuery_of_ne w s q h2 h1]
  refine ⟨rfl, rfl, rfl, ?_, ?_, ?_, ?_⟩
  · simp only [searchCached, List.length_map]
    exact List.length_take_le _ _
  · exact ((List.take_sublist _ _).trans (List.filter_sublist _)).map _
  · intro c hc
    simp only [searchCached] at hc
    obtain ⟨e, he, rfl⟩ := List.mem_map.mp hc
    have he2 := List.mem_of_mem_take he
    exact ⟨e, (List.mem_filter.mp he2).1, (List.mem_filter.mp he2).2, rfl⟩
  · intro hle e he hm
    simp only [searchCached]
    rw [List.take_of_length_le hle]
    exact List.mem_map_of_mem _ (List.mem_filter.mpr ⟨he, hm⟩)

/-- Resolver world for the C8 witness. -/
def w8 : String → Option (List PubChemCompound) := fun _ => none

/-- Witness for C8 at the concrete query string `"ethanol"`. -/
theorem C8_witness :
    (step w8 initState (Event.setQuery "ethanol")).cachedResults = searchCached "ethanol"
    ∧ (searchCached "ethanol").length ≤ 10 := by
  have h := C8_local_cache_search w8 initState "ethanol" (by decide) (by decide)
  exact ⟨h.1, h.2.2.2.1⟩

/-! ### Service-side helper lemmas -/

/-- Queries longer than two characters take the autocomplete path. -/
lemma searchAuto_long (w : PubChemWorld) (q : String) (limit : Nat) (h : 2 < q.length) :
    searchChemicalsAutocomplete w q limit = autocompletePath w q limit := by
  simp only [searchChemicalsAutocomplete]
  rw [if_neg (by omega)]

/-- Unfolding of the autocomplete path when every remote step succeeds. -/
lemma autocompletePath_success (w : PubChemWorld) (q : String) (limit : Nat)
    (ar : AutoResp) (dr : DetailResp) (h1 : w.autoFetch q limit = some ar)
    (h2 : ar.ok = true) (h3 : ar.terms ≠ []) (h4 : resolvedPairs w ar.terms ≠ [])
    (h5 : w.detailFetch ((resolvedPairs w ar.terms).map (fun v => v.2)) = some dr)
    (h6 : dr.ok = true) :
    autocompletePath w q limit =
      (dr.compounds.map (mkDetailRecord (resolvedPairs w ar.terms)),
        ⟨[q], [(resolvedPairs w ar.terms).map (fun v => v.2)]⟩) := by
  have ht : ar.terms.isEmpty = false := by
    cases h : ar.terms with
    | nil => exact absurd h h3
    | cons a as => rfl
  have hpe : (resolvedPairs w ar.terms).isEmpty = false := by
    cases h : resolvedPairs w ar.terms with
    | nil => exact absurd h h4
    | cons a as => rfl
  simp only [autocompletePath]
  rw [h1]
  simp only [h2, if_true, ht, hpe, Bool.false_eq_true, if_false]
  rw [h5]
  simp only [h6, if_true]

/-- Every compound returned by `searchChemicalByName` carries the queried
name as its `name` field. -/
lemma name_of_mem_searchChemicalByName (w : PubChemWorld) (n : String)
    (r : PubChemCompound) (h : r ∈ searchChemicalByName w n) : r.name = n := by
  cases hn : w.nameFetch n with
  | none => simp [searchChemicalByName, hn] at h
  | some resp =>
    simp only [searchChemicalByName, hn] at h
    by_cases hok : resp.ok = true
    · rw [if_pos hok] at h
      obtain ⟨c, _, rfl⟩ := List.mem_map.mp h
      rfl
    · rw [if_neg hok] at h
      simp at h

/-- The head of a list is a member. -/
lemma mem_of_head?_some {α : Type} {l : List α} {a : α} (h : l.head? = some a) : a ∈ l := by
  cases l with
  | nil => simp at h
  | cons x xs => simp_all

/-! ### Claim C3: no identifier dedup before the batched detail call -/

/-- Batch-response record used by the C3 scenario. -/
def raw5 : RawCompound := ⟨5, "C5", 50, none, none⟩

/-- World for C3: suggestions `"x"` and `"y"` both resolve to identifier 5;
the batch endpoint answers the duplicated request `[5, 5]` with two records. -/
def w3 : PubChemWorld :=
  ⟨fun _ => none,
   fun q _ => if q = "zzz" then some ⟨true, ["x", "y"]⟩ else none,
   fun n => if n = "x" then some ⟨true, [5]⟩ else if n = "y" then some ⟨true, [5]⟩ else none,
   fun cids => if cids = [5, 5] then some ⟨true, [raw5, raw5]⟩ else none⟩

/-- Claim C3 as stated is refuted: two suggestion names resolving to the same
identifier are not deduplicated — the single batched detail call is issued
with the identifier list `[5, 5]`, and the returned result sequence contains
identifier 5 twice. -/
theorem C3_counterexample :
    (searchChemicalsAutocomplete w3 "zzz" 50).2.detailCalls = [[5, 5]]
    ∧ (searchChemicalsAutocomplete w3 "zzz" 50).1.map (fun c => c.cid) = [5, 5] := by
  decide

/-- Claim C3 as amended (proved).  The service performs no deduplication by
identifier: the one batched detail call is issued with exactly the surviving
`(name, identifier)` pairs' identifiers in first-seen suggestion order,
duplicates included, and the output has one record per batch-response entry
(so an identifier may appear more than once in a result set). -/
theorem C3_no_dedup_before_batch (w : PubChemWorld) (q : String) (limit : Nat)
    (ar : AutoResp) (dr : DetailResp) (hlen : 2 < q.length)
    (h1 : w.autoFetch q limit = some ar) (h2 : ar.ok = true) (h3 : ar.terms ≠ [])
    (h4 : resolvedPairs w ar.terms ≠ [])
    (h5 : w.detailFetch ((resolvedPairs w ar.terms).map (fun v => v.2)) = some dr)
    (h6 : dr.ok = true) :
    (searchChemicalsAutocomplete w q limit).2.detailCalls =
      [(resolvedPairs w ar.terms).map (fun v => v.2)]
    ∧ (searchChemicalsAutocomplete w q limit).1.map (fun c => c.cid) =
      dr.compounds.map (fun c => c.cid) := by
  rw [searchAuto_long w q limit hlen,
    autocompletePath_success w q limit ar dr h1 h2 h3 h4 h5 h6]
  refine ⟨rfl, ?_⟩
  simp only [List.map_map]
  rfl

/-- Witness for the amended C3 at the concrete duplicate-identifier world. -/
theorem C3_witness :
    (searchChemicalsAutocomplete w3 "zzz" 50).2.detailCalls =
      [(resolvedPairs w3 ["x", "y"]).map (fun v => v.2)]
    ∧ (searchChemicalsAutocomplete w3 "zzz" 50).1.map (fun c => c.cid) = [5, 5] := by
  have h := C3_no_dedup_before_batch w3 "zzz" 50 ⟨true, ["x", "y"]⟩ ⟨true, [raw5, raw5]⟩
    (by decide) (by decide) (by decide) (by decide) (by decide) (by decide) (by decide)
  exact ⟨h.1, by rw [h.2]; decide⟩

/-! ### Claim C4: output order and display names -/

/-- World for C4's counterexample: the one suggestion is the empty string,
which resolves to identifier 7. -/
def w4 : PubChemWorld :=
  ⟨fun _ => none,
   fun q _ => if q = "zzz" then some ⟨true, [""]⟩ else none,
   fun n => if n = "" then some ⟨true, [7]⟩ else none,
   fun cids => if cids = [7] then some ⟨true, [⟨7, "C7", 70, none, none⟩]⟩ else none⟩

/-- Claim C4 as stated is refuted on one point: a resolver pair
`("", 7)` matches the returned record's identifier, yet the record's display
name is the synthesized label `"Compound 7"`, because the JS
`?.name || fallback` also discards an empty matching name. -/
theorem C4_counterexample :
    resolvedPairs w4 [""] = [("", 7)]
    ∧ (searchChemicalsAutocomplete w4 "zzz" 50).1.map (fun c => c.name) = ["Compound 7"] := by
  decide

/-- Claim C4 as amended (proved).  When the batch call succeeds, the output
order is exactly the batch response order (one record per response entry, not
the resolver's input order); each record's display name is the first resolver
pair whose identifier equals the record's identifier provided that name is
non-empty, and the synthesized `"Compound <identifier>"` when no pair
matches (the counterexample covers the empty-name fallback). -/
theorem C4_order_and_display_names (w : PubChemWorld) (q : String) (limit : Nat)
    (ar : AutoResp) (dr : DetailResp) (hlen : 2 < q.length)
    (h1 : w.autoFetch q limit = some ar) (h2 : ar.ok = true) (h3 : ar.terms ≠ [])
    (h4 : resolvedPairs w ar.terms ≠ [])
    (h5 : w.detailFetch ((resolvedPairs w ar.terms).map (fun v => v.2)) = some dr)
    (h6 : dr.ok = true) :
    (searchChemicalsAutocomplete w q limit).1.map (fun c => c.cid) =
      dr.compounds.map (fun c => c.cid)
    ∧ (∀ r ∈ (searchChemicalsAutocomplete w q limit).1, ∀ p,
        (resolvedPairs w ar.terms).find? (fun v => v.2 == r.cid) = some p → p.1 ≠ "" →
          r.name = p.1)
    ∧ (∀ r ∈ (searchChemicalsAutocomplete w q limit).1,
        (resolvedPairs w ar.terms).find? (fun v => v.2 == r.cid) = none →
          r.name = "Compound " ++ toString r.cid) := by
  rw [searchAuto_long w q limit hlen,
    autocompletePath_success w q limit ar dr h1 h2 h3 h4 h5 h6]
  refine ⟨?_, ?_, ?_⟩
  · simp only [List.map_map]
    rfl
  · intro r hr p hp hne
    obtain ⟨c, hc, rfl⟩ := List.mem_map.mp hr
    have hp2 : (resolvedPairs w ar.terms).find? (fun v => v.2 == c.cid) = some p := hp
    show (mkDetailRecord (resolvedPairs w ar.terms) c).name = p.1
    simp only [mkDetailRecord]
    rw [hp2]
    simp [hne]
  · intro r hr hp
    obtain ⟨c, hc, rfl⟩ := List.mem_map.mp hr
    have hp2 : (resolvedPairs w ar.terms).find? (fun v => v.2 == c.cid) = none := hp
    show (mkDetailRecord (resolvedPairs w ar.terms) c).name = _
    simp only [mkDetailRecord]
    rw [hp2]

/-- World for the C4 witness, realizing the spec's batch-ordering example:
identifiers resolved in order `[5, 2, 9]`, batch response in order
`[9, 5, 2]`. -/
def w4w : PubChemWorld :=
  ⟨fun _ => none,
   fun q _ => if q = "abc" then some ⟨true, ["u", "v", "t"]⟩ else none,
   fun n =>
     if n = "u" then some ⟨true, [5]⟩
     else if n = "v" then some ⟨true, [2]⟩
     else if n = "t" then some ⟨true, [9]⟩ else none,
   fun cids =>
     if cids = [5, 2, 9] then
       some ⟨true, [⟨9, "F9", 9, none, none⟩, ⟨5, "F5", 5, none, none⟩,
         ⟨2, "F2", 2, none, none⟩]⟩
     else none⟩

/-- Witness for the amended C4: output follows the batch response order
`[9, 5, 2]`, with the resolver-supplied names attached by identifier. -/
theorem C4_witness :
    (searchChemicalsAutocomplete w4w "abc" 50).1.map (fun c => c.cid) = [9, 5, 2]
    ∧ (searchChemicalsAutocomplete w4w "abc" 50).1.map (fun c => c.name) = ["t", "u", "v"] := by
  have h := C4_order_and_display_names w4w "abc" 50 ⟨true, ["u", "v", "t"]⟩
    ⟨true, [⟨9, "F9", 9, none, none⟩, ⟨5, "F5", 5, none, none⟩, ⟨2, "F2", 2, none, none⟩]⟩
    (by decide) (by decide) (by decide) (by decide) (by decide) (by decide) (by decide)
  exact ⟨by rw [h.1]; decide, by decide⟩

/-! ### Claim C5: the short-query path -/

/-- Claim C5 (confirmed).  For queries of length 1 or 2 with a non-empty
candidate list (the per-letter table of the lowercased first character,
filtered by prefix when the length is 2): no autocomplete or batch call is
made, at most 10 results are returned, and every result is the head of an
individual per-name lookup for one of the first 10 candidates, carrying that
candidate as its display name (single-name failures are dropped).  When the
candidate list is empty the service falls through to the autocomplete path.
In particular, query `"a"` issues no autocomplete call and every result's
display name is one of the seven table entries for the letter a. -/
theorem C5_short_query_path (w : PubChemWorld) (q : String) (limit : Nat)
    (hq : q.length = 1 ∨ q.length = 2) :
    (shortCandidates q ≠ [] →
      (searchChemicalsAutocomplete w q limit).2 = ⟨[], []⟩
      ∧ (searchChemicalsAutocomplete w q limit).1.length ≤ 10
      ∧ ∀ r ∈ (searchChemicalsAutocomplete w q limit).1,
          ∃ n ∈ (shortCandidates q).take 10,
            (searchChemicalByName w n).head? = some r ∧ r.name = n)
    ∧ (shortCandidates q = [] →
        searchChemicalsAutocomplete w q limit = autocompletePath w q limit)
    ∧ (q = "a" →
        (searchChemicalsAutocomplete w q limit).2.autoCalls = []
        ∧ ∀ r ∈ (searchChemicalsAutocomplete w q limit).1,
            r.name ∈ (["acetone", "ammonia", "aspirin", "acetic acid", "acetaminophen",
              "argon", "arsenic"] : List String)) := by
  have hle : q.length ≤ 2 := by rcases hq with h | h <;> omega
  have hunfold : searchChemicalsAutocomplete w q limit =
      if (shortCandidates q).length > 0 then
        (((shortCandidates q).take 10).filterMap
          (fun name => (searchChemicalByName w name).head?), ⟨[], []⟩)
      else autocompletePath w q limit := by
    simp only [searchChemicalsAutocomplete]
    rw [if_pos hle]
  refine ⟨?_, ?_, ?_⟩
  · intro hne
    have hpos : 0 < (shortCandidates q).length := List.length_pos.mpr hne
    rw [hunfold, if_pos hpos]
    refine ⟨rfl, ?_, ?_⟩
    · exact le_trans (List.length_filterMap_le _ _) (List.length_take_le _ _)
    · intro r hr
      obtain ⟨n, hn, hfn⟩ := List.mem_filterMap.mp hr
      exact ⟨n, hn, hfn,
        name_of_mem_searchChemicalByName w n r (mem_of_head?_some hfn)⟩
  · intro hnil
    rw [hunfold, if_neg (by simp [hnil])]
  · rintro rfl
    have ha : searchChemicalsAutocomplete w "a" limit =
        (((["acetone", "ammonia", "aspirin", "acetic acid", "acetaminophen", "argon",
            "arsenic"] : List String).take 10).filterMap
          (fun name => (searchChemicalByName w name).head?), ⟨[], []⟩) := rfl
    rw [ha]
    refine ⟨rfl, ?_⟩
    intro r hr
    obtain ⟨n, hn, hfn⟩ := List.mem_filterMap.mp hr
    rw [name_of_mem_searchChemicalByName w n r (mem_of_head?_some hfn)]
    simpa using hn

/-- World for the C5 witness: only the name `"acetone"` resolves. -/
def w5 : PubChemWorld :=
  ⟨fun n => if n = "acetone" then some ⟨true, [⟨180, "C3H6O", 58, none, none⟩]⟩ else none,
   fun _ _ => none, fun _ => none, fun _ => none⟩

/-- Witness for C5 at the concrete query `"a"`. -/
theorem C5_witness :
    (searchChemicalsAutocomplete w5 "a" 50).2.autoCalls = []
    ∧ ∀ r ∈ (searchChemicalsAutocomplete w5 "a" 50).1,
        r.name ∈ (["acetone", "ammonia", "aspirin", "acetic acid", "acetaminophen",
          "argon", "arsenic"] : List String) :=
  (C5_short_query_path w5 "a" 50 (Or.inl rfl)).2.2 rfl

/-! ### Claim C6: failure handling -/

/-- Claim C6 (confirmed).  Every failure mode of the remote resolution chain
degrades to an empty result instead of an exception: a rejected or non-success
name lookup yields `[]`; a rejected, non-success or empty autocomplete
response yields `[]`; a rejected or non-success batched detail call yields
`[]`.  At the orchestrator, the settlement of a remote call — resolved or
rejected alike — always leaves `loading = false` (the `finally` branch). -/
theorem C6_failures_degrade_to_empty (w : PubChemWorld)
    (wr : String → Option (List PubChemCompound)) (q : String) (limit : Nat)
    (s : HookState) (i : Nat) :
    (w.nameFetch q = none → searchChemicalByName w q = [])
    ∧ (∀ r, w.nameFetch q = some r → r.ok = false → searchChemicalByName w q = [])
    ∧ (w.autoFetch q limit = none → autocompletePath w q limit = ([], ⟨[q], []⟩))
    ∧ (∀ ar, w.autoFetch q limit = some ar → ar.ok = false →
        autocompletePath w q limit = ([], ⟨[q], []⟩))
    ∧ (∀ ar, w.autoFetch q limit = some ar → ar.terms = [] →
        autocompletePath w q limit = ([], ⟨[q], []⟩))
    ∧ (∀ ar, w.autoFetch q limit = some ar → ar.ok = true →
        w.detailFetch ((resolvedPairs w ar.terms).map (fun v => v.2)) = none →
        (autocompletePath w q limit).1 = [])
    ∧ (∀ ar dr, w.autoFetch q limit = some ar → ar.ok = true →
        w.detailFetch ((resolvedPairs w ar.terms).map (fun v => v.2)) = some dr →
        dr.ok = false → (autocompletePath w q limit).1 = [])
    ∧ (∀ f, s.inflight[i]? = some f → (step wr s (Event.flightSettle i)).loading = false) := by
  refine ⟨?_, ?_, ?_, ?_, ?_, ?_, ?_, ?_⟩
  · intro h
    simp [searchChemicalByName, h]
  · intro r h hok
    simp [searchChemicalByName, h, hok]
  · intro h
    simp [autocompletePath, h]
  · intro ar h hok
    simp [autocompletePath, h, hok]
  · intro ar h ht
    simp [autocompletePath, h, ht]
  · intro ar h hok hdet
    simp only [autocompletePath, h, hok, if_true]
    by_cases ht : ar.terms.isEmpty
    · simp [ht]
    · simp only [Bool.not_eq_true] at ht
      simp only [ht, Bool.false_eq_true, if_false]
      by_cases hpe : (resolvedPairs w ar.terms).isEmpty
      · simp [hpe]
      · simp only [Bool.not_eq_true] at hpe
        simp only [hpe, Bool.false_eq_true, if_false]
        rw [hdet]
  · intro ar dr h hok hdet hdr
    simp only [autocompletePath, h, hok, if_true]
    by_cases ht : ar.terms.isEmpty
    · simp [ht]
    · simp only [Bool.not_eq_true] at ht
      simp only [ht, Bool.false_eq_true, if_false]
      by_cases hpe : (resolvedPairs w ar.terms).isEmpty
      · simp [hpe]
      · simp only [Bool.not_eq_true] at hpe
        simp only [hpe, Bool.false_eq_true, if_false]
        rw [hdet]
        simp [hdr]
  · intro f hf
    rw [step_settle_eq wr s i f hf]
    cases wr f.fquery <;> rfl

/-- World for the C6 witness: every endpoint rejects. -/
def w6 : PubChemWorld := ⟨fun _ => none, fun _ _ => none, fun _ => none, fun _ => none⟩

/-- Hook resolver for the C6 witness: the remote call rejects. -/
def wr6 : String → Option (List PubChemCompound) := fun _ => none

/-- Hook state for the C6 witness: one call in flight, `loading` set. -/
def s6 : HookState := ⟨"qf", [], [], true, Source.api, none, [⟨"qf", []⟩]⟩

/-- Witness for C6: concrete transport failures give empty results, and a
rejected settlement still clears `loading`. -/
theorem C6_witness :
    searchChemicalByName w6 "x" = []
    ∧ autocompletePath w6 "x" 50 = ([], ⟨["x"], []⟩)
    ∧ (step wr6 s6 (Event.flightSettle 0)).loading = false := by
  have h := C6_failures_degrade_to_empty w6 wr6 "x" 50 s6 0
  exact ⟨h.1 rfl, h.2.2.1 rfl, h.2.2.2.2.2.2.2 ⟨"qf", []⟩ rfl⟩

end SafeChem
